import Mathlib

/-!
# Verification of the MediathekViewWeb CLI client

Shallow embedding of the command-line client (`help.js`) of
mpizala/mediathekview-cli.  Pure computations (quality selection, result
filtering, query construction, tilde expansion, option dispatch) are
translated to Lean functions; the branch structure of each effectful
function (channel listing, download-by-id, interactive mode, config
loading) is modelled as a function from the outcome of its external calls
to the observable result (exit code, reported condition, value passed on).
JavaScript strings are modelled as `String`; JS truthiness of a
possibly-absent string field is modelled on `Option String`.
-/

namespace MediathekView

/-- JS truthiness of a possibly-undefined string value: `undefined` and the
empty string are falsy, every other string is truthy. -/
def jsTruthy : Option String → Bool
  | none => false
  | some s => s ≠ ""

/-- One media item as returned by the backend (`video` in the source):
identifier, title, channel, duration, timestamp, and the three quality
URLs `url_video_hd`, `url_video`, `url_video_low`, each possibly absent. -/
structure Entry where
  id : String
  title : String
  channel : String
  duration : Nat
  timestamp : Nat
  url_video_hd : Option String
  url_video : Option String
  url_video_low : Option String
deriving DecidableEq, Repr

/-- The three quality URL fields of an entry, in the source's fallback
order `url_video_hd`, `url_video`, `url_video_low`. -/
inductive QField where
  | hd
  | medium
  | low
deriving DecidableEq, Repr

/-- Field access `video[f]` for a quality field name. -/
def Entry.urlField (v : Entry) : QField → Option String
  | .hd => v.url_video_hd
  | .medium => v.url_video
  | .low => v.url_video_low

/-- The `qualityMap` object from `getAndDownloadVideo` /
`startInteractiveMode`: `'hd' → url_video_hd`, `'medium' → url_video`,
`'low' → url_video_low`; any other key is absent (`undefined`). -/
def qualityMap (s : String) : Option QField :=
  if s = "hd" then some .hd
  else if s = "medium" then some .medium
  else if s = "low" then some .low
  else none

/-- `options.quality.toLowerCase()`. -/
def jsToLowerCase (s : String) : String :=
  String.mk (s.data.map Char.toLower)

/-- The second selection step of the source's quality-selection block:
`if (!quality) { if (video.url_video_hd) ... else if (video.url_video) ...
else if (video.url_video_low) ... }` — the first truthy URL in the fixed
order hd, medium, low, or nothing when all three are empty. -/
def fallbackQuality (v : Entry) : Option QField :=
  if jsTruthy v.url_video_hd then some .hd
  else if jsTruthy v.url_video then some .medium
  else if jsTruthy v.url_video_low then some .low
  else none

/-- The quality-selection block shared verbatim by `getAndDownloadVideo`
and `startInteractiveMode`: `quality` is set to the mapped command-line
preference when that key is in `qualityMap` and the entry's URL field is
truthy; when `quality` is still unset, the fallback chain runs. The
result `none` models `quality` remaining `undefined`. -/
def selectQualityField (pref : Option String) (v : Entry) : Option QField :=
  let preferred : Option QField :=
    if jsTruthy pref then
      match qualityMap (jsToLowerCase (pref.getD "")) with
      | some f => if jsTruthy (v.urlField f) then some f else none
      | none => none
    else none
  match preferred with
  | some f => some f
  | none => fallbackQuality v

/-- What the caller does right after the quality-selection block. -/
inductive AfterSelection where
  | invokeDownload (url : Option String)
  | abortEntry
deriving DecidableEq, Repr

/-- The statement following the selection block in both callers:
`await downloadVideo(video[quality], filename, video)` — the download is
invoked unconditionally, with `video[quality]` being `undefined` when
`quality` is `undefined` (JS `video[undefined]`). -/
def afterQualitySelection (pref : Option String) (v : Entry) : AfterSelection :=
  .invokeDownload ((selectQualityField pref v).bind fun f => v.urlField f)

/-! ## Search: query construction and post-filtering (`searchMovies`) -/

/-- One field-match clause of the backend query
(`{fields: [...], query: ...}`). -/
structure Clause where
  fields : List String
  query : String
deriving DecidableEq, Repr

/-- The `searchQuery` object built by `searchMovies`. `limit` is modelled
as the already-parsed numeric value of the `-l` option. -/
structure SearchQuery where
  queries : List Clause
  sortBy : String
  sortOrder : String
  future : Bool
  offset : Nat
  size : Option Nat
deriving DecidableEq, Repr

/-- Query construction in `searchMovies`: the title/topic clause is always
present; a channel clause is pushed only when `channel` is truthy; `size`
is set only when `limit` is truthy. -/
def buildSearchQuery (query : String) (channel : Option String)
    (limit : Option Nat) : SearchQuery :=
  { queries :=
      [⟨["title", "topic"], query⟩] ++
        (match channel with
         | some c => if c ≠ "" then [⟨["channel"], c⟩] else []
         | none => [])
    sortBy := "timestamp"
    sortOrder := "desc"
    future := false
    offset := 0
    size := limit }

/-- `excludeChannels.split(',').map(ch => ch.trim())`. -/
def parseExcludeList (s : String) : List String :=
  (s.splitOn ",").map String.trim

/-- The post-receipt exclusion filter of `searchMovies`:
`results.filter(item => !excludedChannelsList.includes(item.channel))`. -/
def filterExcluded (excluded : List String) (results : List Entry) : List Entry :=
  results.filter fun item => !(excluded.contains item.channel)

/-- The count printed by `searchMovies`:
`originalCount - results.length` after filtering. -/
def reportedExcludedCount (excluded : List String) (results : List Entry) : Nat :=
  results.length - (filterExcluded excluded results).length

/-- The value `searchMovies` resolves with, as a function of the raw
result list received from the backend: the exclusion filter runs only
when the exclude option is truthy (its split list is then nonempty). -/
def searchMoviesResult (excludeChannels : Option String)
    (raw : List Entry) : List Entry :=
  match excludeChannels with
  | some s =>
      if s ≠ "" then
        let lst := parseExcludeList s
        if lst.length > 0 then filterExcluded lst raw else raw
      else raw
  | none => raw

/-! ## Tilde expansion (`expandTildePath`) -/

/-- Core of `expandTildePath` on character lists.  The source tests
`pathWithTilde.startsWith('~/') || pathWithTilde === '~'` and then runs
`replace(/^~(?=$|\/|\\)/, os.homedir())`; inside the branch the anchored
pattern always matches (the path starts with `~/` or is exactly `~`), so
the replacement is `homedir` followed by everything after the leading
tilde.  Outside the branch the path is returned unchanged. -/
def tildeCore (home p : List Char) : List Char :=
  if p.take 2 = ['~', '/'] ∨ p = ['~'] then home ++ p.drop 1 else p

/-- `expandTildePath(pathWithTilde)` on strings (the `typeof` guard only
concerns non-string inputs, which are returned unchanged). `home` is the
value of `os.homedir()`. -/
def expandTildePath (home p : String) : String :=
  String.mk (tildeCore home.data p.data)

/-! ## Dispatcher (the option chain in `socket.on('connect')`) -/

/-- The option fields that choose the top-level action.  `channels` and
`interactive` are boolean flags; `query` and `download` take a string
value and are absent when the flag is not given. -/
structure CliOptions where
  channels : Bool
  query : Option String
  download : Option String
  interactive : Bool
deriving DecidableEq, Repr

/-- The four top-level actions. -/
inductive Action where
  | listChannels
  | search
  | downloadById
  | interactive
deriving DecidableEq, Repr

/-- The dispatch chain in the connect handler:
`if (options.channels) ... else if (options.query) ... else if
(options.download) ... else if (options.interactive) ... else` default
to interactive mode.  String options are tested by JS truthiness. -/
def dispatch (o : CliOptions) : Action :=
  if o.channels then .listChannels
  else if jsTruthy o.query then .search
  else if jsTruthy o.download then .downloadById
  else if o.interactive then .interactive
  else .interactive

/-! ## Channel-selection pre-step (`options.channel === true`) -/

/-- The state of the `-c` (`--channel`) option after parsing: flag given
without a value (`true`), flag with a value, or absent. -/
inductive ChannelOpt where
  | flagNoValue
  | value (s : String)
  | absent
deriving DecidableEq, Repr

/-- Outcome of `fetch(server + '/api/channels')` followed by
`data.channels || []`: the fetch/parse can throw, or yield a body whose
`channels` field may be missing. -/
inductive FetchChannelsOutcome where
  | failure
  | ok (channels : Option (List String))
deriving DecidableEq, Repr

/-- Result of the pre-action channel-resolution step: the value
`options.channel` ends up with, whether a warning/error was printed, and
whether execution continues into the action dispatch. -/
structure ResolveResult where
  channel : Option String
  reported : Bool
  proceeds : Bool
deriving DecidableEq, Repr

/-- The `options.channel === true` block of the connect handler.
On fetch failure the error is printed and `options.channel = null`; on an
empty (or missing) channel list a notice is printed and
`options.channel = null`; otherwise the user's prompt choice (possibly
the `ALL` entry, i.e. `null`) is stored.  In every case control falls
through to the action dispatch below the block. -/
def resolveChannelSelection (opt : ChannelOpt) (fetch : FetchChannelsOutcome)
    (userPick : Option String) : ResolveResult :=
  match opt with
  | .flagNoValue =>
      match fetch with
      | .failure => ⟨none, true, true⟩
      | .ok data =>
          let channels := data.getD []
          if channels.length > 0 then ⟨userPick, false, true⟩
          else ⟨none, true, true⟩
  | .value s => ⟨some s, false, true⟩
  | .absent => ⟨none, false, true⟩

/-! ## Exit codes -/

/-- `socket.on('error', ...)` ends with `process.exit(1)`. -/
def socketErrorExitCode : Nat := 1

/-- `process.on('uncaughtException', ...)` ends with `process.exit(1)`. -/
def uncaughtExceptionExitCode : Nat := 1

/-- `process.on('unhandledRejection', ...)` ends with `process.exit(1)`. -/
def unhandledRejectionExitCode : Nat := 1

/-- Outcome of the channel fetch inside `listChannels`: the fetch/parse
can throw, or yield a body with an optional `error` field and an optional
`channels` list. -/
inductive ListChannelsOutcome where
  | fetchFailure
  | response (error : Option String) (channels : Option (List String))
deriving DecidableEq, Repr

/-- `listChannels`: the `try` block prints the list or the `error` field,
the `catch` block prints the exception, and control falls through to the
single `process.exit(0)` at the end in every case. -/
def listChannelsExitCode : ListChannelsOutcome → Nat
  | .fetchFailure => 0
  | .response _ _ => 0

/-- Outcome of the `POST /api/entries` lookup inside
`getAndDownloadVideo`: the fetch/parse can throw, or yield a body with an
optional `err` field, an optional `result` wrapper, and inside it an
optional `results` list. -/
inductive IdLookupOutcome where
  | fetchFailure
  | response (err : Option String) (result : Option (Option (List Entry)))
deriving DecidableEq, Repr

/-- Condition signalled by `getAndDownloadVideo` for a lookup outcome. -/
inductive IdSignal where
  | backendError
  | notFound
  | caughtException
  | proceeded
deriving DecidableEq, Repr

/-- Observable result of `getAndDownloadVideo`: the condition signalled
and the process exit code. -/
structure IdRun where
  signal : IdSignal
  exitCode : Nat
deriving DecidableEq, Repr

/-- `getAndDownloadVideo` as a function of the lookup outcome: `data.err`
present → error printed, `process.exit(1)`; `data.result.results` missing
or empty → not-found printed, `process.exit(1)`; `data.result` itself
missing → the member access throws, the `catch` prints it and control
reaches the final `process.exit(0)`; a thrown fetch likewise ends at
`process.exit(0)`; otherwise the download runs (its own errors are caught
inside `downloadVideo`) and the function ends at `process.exit(0)`. -/
def getAndDownloadVideoRun : IdLookupOutcome → IdRun
  | .fetchFailure => ⟨.caughtException, 0⟩
  | .response err result =>
      match err with
      | some _ => ⟨.backendError, 1⟩
      | none =>
          match result with
          | none => ⟨.caughtException, 0⟩
          | some results? =>
              match results? with
              | none => ⟨.notFound, 1⟩
              | some [] => ⟨.notFound, 1⟩
              | some (_ :: _) => ⟨.proceeded, 0⟩

/-- Outcome of `startInteractiveMode`, coarsely: an exception anywhere in
its `try` block (channel fetch, prompts, search rejection, download), a
search that resolved with zero results, or a completed flow. -/
inductive InteractiveOutcome where
  | caughtException
  | noResults
  | completed
deriving DecidableEq, Repr

/-- `startInteractiveMode`: zero results hits `process.exit(0)` directly;
the `catch` block prints the error and falls through to the final
`process.exit(0)`; completion also ends at `process.exit(0)`. -/
def startInteractiveModeExitCode : InteractiveOutcome → Nat
  | .caughtException => 0
  | .noResults => 0
  | .completed => 0

/-! ## Configuration loading (`loadConfig`) -/

/-- The recognized keys of `~/.mediathekviewrc`, each possibly absent. -/
structure Config where
  server : Option String
  channel : Option String
  quality : Option String
  limit : Option String
  exclude : Option String
  output : Option String
deriving DecidableEq, Repr

/-- The empty config object `{}`. -/
def emptyConfig : Config := ⟨none, none, none, none, none, none⟩

/-- State of the preferences file at startup: absent, or present with the
result of `parse` (`none` models an unparsable file, i.e. `parse`
throwing). -/
inductive ConfigFileState where
  | absent
  | present (parsed : Option Config)
deriving DecidableEq, Repr

/-- Observable result of `loadConfig`: the returned config object,
whether the warning was printed, and whether the process terminated
(there is no exit path in `loadConfig`, so this is always `false`). -/
structure LoadResult where
  config : Config
  warned : Bool
  terminated : Bool
deriving DecidableEq, Repr

/-- `loadConfig` with homedir `home`: file present and parsable → the
parsed object with `output` tilde-expanded; file present but `parse`
throws → the `catch` prints the warning and `{}` is returned; file absent
→ the default file is created and `{}` is returned.  No branch exits. -/
def loadConfig (home : String) : ConfigFileState → LoadResult
  | .absent => ⟨emptyConfig, false, false⟩
  | .present none => ⟨emptyConfig, true, false⟩
  | .present (some c) =>
      ⟨{ c with output := c.output.map (expandTildePath home) }, false, false⟩

/-- The built-in server default (`DEFAULT_SERVER`). -/
def DEFAULT_SERVER : String := "https://mediathekviewweb.de"

/-- The effective server after option setup:
`configDefaults.server || DEFAULT_SERVER`. -/
def effectiveServer (c : Config) : String :=
  if jsTruthy c.server then c.server.getD "" else DEFAULT_SERVER

/-- The effective quality preference after option setup:
`configDefaults.quality || 'hd'`. -/
def effectiveQuality (c : Config) : String :=
  if jsTruthy c.quality then c.quality.getD "" else "hd"

/-! ## Backend contract (external service) -/

/-- Modelled from the spec: the remote search backend is an external
collaborator whose code is not in this repository.  Per the spec, a
query's clauses are field-match clauses ANDed by the backend, and the
post-filter invariant for the channel field is that every returned entry
has exactly the channel name of a clause over the `channel` field.  This
predicate says a raw result list honors the channel clauses of a query in
that sense; the text-match semantics of other fields is left
unconstrained. -/
def respectsChannelClauses (sq : SearchQuery) (raw : List Entry) : Prop :=
  ∀ e ∈ raw, ∀ c ∈ sq.queries, c.fields = ["channel"] → e.channel = c.query

/-! ## Sample entries used in concrete evaluations -/

/-- A sample entry with HD and medium URLs. -/
def sampleARD : Entry :=
  ⟨"id-ard", "Tatort", "ARD", 5400, 1700000000,
    some "http://example.org/hd.mp4", some "http://example.org/med.mp4", none⟩

/-- A sample entry with only a medium URL. -/
def sampleMediumOnly : Entry :=
  ⟨"id-med", "Film", "NDR", 3600, 1690000000,
    none, some "http://example.org/m.mp4", none⟩

/-- A sample entry with a medium URL, on channel ZDF. -/
def sampleZDF : Entry :=
  ⟨"id-zdf", "Magazin", "ZDF", 1800, 1699000000,
    none, some "http://example.org/z.mp4", none⟩

/-- A sample entry with no quality URLs at all. -/
def sampleNoUrls : Entry :=
  ⟨"id-empty", "Lost", "ARTE", 0, 0, none, none, none⟩

end MediathekView

open MediathekView

/-! ## Helper lemmas -/

/-- The fallback chain picks the first truthy URL in the fixed order
hd, medium, low. -/
theorem fallbackQuality_eq_find (v : Entry) :
    fallbackQuality v =
      [QField.hd, QField.medium, QField.low].find?
        (fun g => jsTruthy (v.urlField g)) := by
  unfold fallbackQuality
  by_cases h1 : jsTruthy v.url_video_hd
  · simp [List.find?, Entry.urlField, h1]
  · by_cases h2 : jsTruthy v.url_video
    · simp [List.find?, Entry.urlField, h1, h2]
    · by_cases h3 : jsTruthy v.url_video_low
      · simp [List.find?, Entry.urlField, h1, h2, h3]
      · simp [List.find?, Entry.urlField, h1, h2, h3]

/-- Membership in the value `searchMovies` resolves with implies
membership in the raw backend result list. -/
theorem mem_of_mem_searchMoviesResult {excl : Option String}
    {raw : List Entry} {e : Entry}
    (h : e ∈ searchMoviesResult excl raw) : e ∈ raw := by
  unfold searchMoviesResult at h
  cases excl with
  | none => exact h
  | some s =>
      by_cases hs : s ≠ ""
      · simp only [if_pos hs] at h
        by_cases hl : (parseExcludeList s).length > 0
        · simp only [if_pos hl] at h
          exact (List.mem_filter.mp h).1
        · simpa only [if_neg hl] using h
      · simpa only [if_neg hs] using h

/-- A list whose first character is not a tilde satisfies neither branch
condition of `tildeCore`. -/
theorem tildeCond_false_of_head_ne (l : List Char) (hne : l.take 1 ≠ ['~']) :
    ¬(l.take 2 = ['~', '/'] ∨ l = ['~']) := by
  rintro (h | h)
  · apply hne
    rcases l with _ | ⟨c, t⟩
    · simp at h
    · simp [List.take] at h ⊢
      exact h.1
  · subst h
    exact hne rfl

/-- Appending a non-tilde-headed suffix to a non-tilde-headed homedir
yields a list whose first character is not a tilde. -/
theorem take_one_append_ne (home : List Char) (c : Char) (t : List Char)
    (hh : home.take 1 ≠ ['~']) (hc : c ≠ '~') :
    ((home ++ c :: t).take 1) ≠ ['~'] := by
  rcases home with _ | ⟨a, hs⟩
  · simpa [List.take] using hc
  · simp [List.take] at hh ⊢
    exact hh

/-- Core idempotence of tilde expansion when the homedir does not itself
start with a tilde. -/
theorem tildeCore_idem (home p : List Char) (hh : home.take 1 ≠ ['~']) :
    tildeCore home (tildeCore home p) = tildeCore home p := by
  by_cases hp : p.take 2 = ['~', '/'] ∨ p = ['~']
  · have hcore : tildeCore home p = home ++ p.drop 1 := by
      unfold tildeCore
      rw [if_pos hp]
    rw [hcore]
    rcases hp with hp | hp
    · obtain ⟨t, rfl⟩ : ∃ t, p = '~' :: '/' :: t := by
        rcases p with _ | ⟨a, _ | ⟨b, t⟩⟩
        · simp at hp
        · simp [List.take] at hp
        · simp [List.take] at hp
          exact ⟨t, by rw [hp.1, hp.2]⟩
      have hdrop : ('~' :: '/' :: t).drop 1 = '/' :: t := rfl
      rw [hdrop]
      unfold tildeCore
      rw [if_neg (tildeCond_false_of_head_ne _
        (take_one_append_ne home '/' t hh (by decide)))]
    · subst hp
      have hdrop : (['~'] : List Char).drop 1 = [] := rfl
      rw [hdrop, List.append_nil]
      unfold tildeCore
      rw [if_neg (tildeCond_false_of_head_ne _ hh)]
  · simp only [tildeCore, if_neg hp]

/-! ## Claims -/

/-- C7: tilde expansion is idempotent — for every string path `p`,
expanding twice is the same as expanding once, given that the homedir
(the value of `os.homedir()`, an absolute path) does not itself start
with a tilde.  In particular an already-expanded absolute path is
returned unchanged by a second expansion. -/
theorem expandTildePath_idempotent (home p : String)
    (h : home.data.take 1 ≠ ['~']) :
    expandTildePath home (expandTildePath home p) = expandTildePath home p := by
  show String.mk (tildeCore home.data (tildeCore home.data p.data)) =
    String.mk (tildeCore home.data p.data)
  rw [tildeCore_idem home.data p.data h]

/-- Witness for C7: concrete homedir and a tilde path. -/
theorem expandTildePath_idempotent_witness :
    "/home/user".data.take 1 ≠ ['~'] ∧
    expandTildePath "/home/user" (expandTildePath "/home/user" "~/Videos") =
      expandTildePath "/home/user" "~/Videos" :=
  ⟨by decide, expandTildePath_idempotent "/home/user" "~/Videos" (by decide)⟩

/-- C2: exclusion post-filtering — for every exclusion set `E` and raw
result list `R`, the filtered list is the subsequence of `R` (order
preserved) of exactly the entries whose channel is not in `E`, and the
reported excluded count plus the filtered length recovers `|R|`, i.e. the
count equals `|R| - |filtered|`. -/
theorem exclusion_postfilter (E : List String) (R : List Entry) :
    List.Sublist (filterExcluded E R) R ∧
    (∀ e, e ∈ filterExcluded E R ↔ e ∈ R ∧ e.channel ∉ E) ∧
    reportedExcludedCount E R + (filterExcluded E R).length = R.length := by
  refine ⟨List.filter_sublist _, ?_, ?_⟩
  · intro e
    simp [filterExcluded, List.mem_filter]
  · have hle : (filterExcluded E R).length ≤ R.length :=
      (List.filter_sublist _).length_le
    unfold reportedExcludedCount
    omega

/-- Witness for C2: one excluded channel, ZDF entry removed. -/
theorem exclusion_postfilter_witness :
    List.Sublist (filterExcluded ["ZDF"] [sampleARD, sampleZDF])
      [sampleARD, sampleZDF] ∧
    (∀ e, e ∈ filterExcluded ["ZDF"] [sampleARD, sampleZDF] ↔
      e ∈ [sampleARD, sampleZDF] ∧ e.channel ∉ ["ZDF"]) ∧
    reportedExcludedCount ["ZDF"] [sampleARD, sampleZDF] +
      (filterExcluded ["ZDF"] [sampleARD, sampleZDF]).length = 2 :=
  exclusion_postfilter ["ZDF"] [sampleARD, sampleZDF]

/-- C1 counterexample: on an entry whose three quality URLs are all
absent, the selection block leaves `quality` undefined (modelled as
`none`), but the caller does not abort — `downloadVideo` is still invoked
with `video[quality] = undefined`, contradicting the claim that the
download action is aborted as a terminal condition. -/
theorem quality_none_not_aborted_cex :
    selectQualityField (some "hd") sampleNoUrls = none ∧
    afterQualitySelection (some "hd") sampleNoUrls =
      AfterSelection.invokeDownload none ∧
    AfterSelection.invokeDownload none ≠ AfterSelection.abortEntry := by
  decide

/-- C1 amended: for every entry and preferred quality tier, the selection
block picks the preferred tier when that tier's URL field is non-empty;
otherwise it picks the first non-empty URL in the fixed fallback order
hd, medium, low; and when all three URL fields are empty the selection
yields no tier and the caller does not abort: it invokes the download
with an undefined URL. -/
theorem quality_selection_amended (s : String) (f : QField) (v : Entry)
    (hs : s ≠ "") (hf : qualityMap (jsToLowerCase s) = some f) :
    (jsTruthy (v.urlField f) = true →
      selectQualityField (some s) v = some f) ∧
    (jsTruthy (v.urlField f) = false →
      selectQualityField (some s) v =
        [QField.hd, QField.medium, QField.low].find?
          (fun g => jsTruthy (v.urlField g))) ∧
    (selectQualityField (some s) v = none →
      afterQualitySelection (some s) v = AfterSelection.invokeDownload none) := by
  have hts : jsTruthy (some s) = true := by
    simp [jsTruthy, hs]
  refine ⟨?_, ?_, ?_⟩
  · intro hf'
    simp [selectQualityField, hts, hf, hf']
  · intro hf'
    rw [← fallbackQuality_eq_find]
    simp [selectQualityField, hts, hf, hf']
  · intro hnone
    simp [afterQualitySelection, hnone]

/-- Witness for C1's amended theorem: preference "medium" on an entry
whose only URL is the medium one. -/
theorem quality_selection_amended_witness :
    ("medium" : String) ≠ "" ∧
    qualityMap (jsToLowerCase "medium") = some QField.medium ∧
    ((jsTruthy (sampleMediumOnly.urlField QField.medium) = true →
      selectQualityField (some "medium") sampleMediumOnly = some QField.medium) ∧
    (jsTruthy (sampleMediumOnly.urlField QField.medium) = false →
      selectQualityField (some "medium") sampleMediumOnly =
        [QField.hd, QField.medium, QField.low].find?
          (fun g => jsTruthy (sampleMediumOnly.urlField g))) ∧
    (selectQualityField (some "medium") sampleMediumOnly = none →
      afterQualitySelection (some "medium") sampleMediumOnly =
        AfterSelection.invokeDownload none)) :=
  ⟨by decide, by decide,
    quality_selection_amended "medium" QField.medium sampleMediumOnly
      (by decide) (by decide)⟩

/-- C10: an invalid `--quality` value (lowercased value not a key of
`qualityMap`) is silently ignored — the selection block behaves exactly
as with no preference, running only the fallback chain, which picks the
highest available tier in the order hd, medium, low.  The source has no
error or prompt path anywhere in this block. -/
theorem invalid_quality_ignored (s : String) (v : Entry)
    (h : qualityMap (jsToLowerCase s) = none) :
    selectQualityField (some s) v = selectQualityField none v ∧
    selectQualityField (some s) v = fallbackQuality v ∧
    fallbackQuality v =
      [QField.hd, QField.medium, QField.low].find?
        (fun g => jsTruthy (v.urlField g)) := by
  refine ⟨?_, ?_, fallbackQuality_eq_find v⟩
  · by_cases hs : s = ""
    · simp [selectQualityField, jsTruthy, hs]
    · simp [selectQualityField, jsTruthy, hs, h]
  · by_cases hs : s = ""
    · simp [selectQualityField, jsTruthy, hs]
    · simp [selectQualityField, jsTruthy, hs, h]

/-- Witness for C10: invalid preference "ultra" on an entry with only a
medium URL selects medium, exactly as with no preference. -/
theorem invalid_quality_ignored_witness :
    qualityMap (jsToLowerCase "ultra") = none ∧
    (selectQualityField (some "ultra") sampleMediumOnly =
      selectQualityField none sampleMediumOnly ∧
    selectQualityField (some "ultra") sampleMediumOnly =
      fallbackQuality sampleMediumOnly ∧
    fallbackQuality sampleMediumOnly =
      [QField.hd, QField.medium, QField.low].find?
        (fun g => jsTruthy (sampleMediumOnly.urlField g))) :=
  ⟨by decide, invalid_quality_ignored "ultra" sampleMediumOnly (by decide)⟩

/-- C9: exactly one of the four top-level actions runs per invocation,
chosen by the fixed precedence channels, then query, then download, then
interactive; with no action flag at all, interactive mode runs (last
conjunct with `interactive` arbitrary, hence also `false`). -/
theorem dispatch_exactly_one (o : CliOptions) :
    (dispatch o = Action.listChannels ∨ dispatch o = Action.search ∨
      dispatch o = Action.downloadById ∨ dispatch o = Action.interactive) ∧
    (o.channels = true → dispatch o = Action.listChannels) ∧
    (o.channels = false → jsTruthy o.query = true →
      dispatch o = Action.search) ∧
    (o.channels = false → jsTruthy o.query = false →
      jsTruthy o.download = true → dispatch o = Action.downloadById) ∧
    (o.channels = false → jsTruthy o.query = false →
      jsTruthy o.download = false → dispatch o = Action.interactive) := by
  unfold dispatch
  refine ⟨?_, ?_, ?_, ?_, ?_⟩
  · by_cases h1 : o.channels <;> by_cases h2 : jsTruthy o.query <;>
      by_cases h3 : jsTruthy o.download <;> by_cases h4 : o.interactive <;>
      simp [h1, h2, h3, h4]
  · intro h1
    simp [h1]
  · intro h1 h2
    simp [h1, h2]
  · intro h1 h2 h3
    simp [h1, h2, h3]
  · intro h1 h2 h3
    by_cases h4 : o.interactive <;> simp [h1, h2, h3, h4]

/-- Witness for C9: no action flag given — the interactive action runs. -/
theorem dispatch_exactly_one_witness :
    (dispatch ⟨false, none, none, false⟩ = Action.listChannels ∨
      dispatch ⟨false, none, none, false⟩ = Action.search ∨
      dispatch ⟨false, none, none, false⟩ = Action.downloadById ∨
      dispatch ⟨false, none, none, false⟩ = Action.interactive) ∧
    ((⟨false, none, none, false⟩ : CliOptions).channels = true →
      dispatch ⟨false, none, none, false⟩ = Action.listChannels) ∧
    ((⟨false, none, none, false⟩ : CliOptions).channels = false →
      jsTruthy (⟨false, none, none, false⟩ : CliOptions).query = true →
      dispatch ⟨false, none, none, false⟩ = Action.search) ∧
    ((⟨false, none, none, false⟩ : CliOptions).channels = false →
      jsTruthy (⟨false, none, none, false⟩ : CliOptions).query = false →
      jsTruthy (⟨false, none, none, false⟩ : CliOptions).download = true →
      dispatch ⟨false, none, none, false⟩ = Action.downloadById) ∧
    ((⟨false, none, none, false⟩ : CliOptions).channels = false →
      jsTruthy (⟨false, none, none, false⟩ : CliOptions).query = false →
      jsTruthy (⟨false, none, none, false⟩ : CliOptions).download = false →
      dispatch ⟨false, none, none, false⟩ = Action.interactive) :=
  dispatch_exactly_one ⟨false, none, none, false⟩

/-- C4: a download-by-id lookup whose response carries no error field but
an empty (or missing) result list signals NotFound and the process exits
with code 1. -/
theorem download_by_id_not_found (err : Option String)
    (rs : Option (List Entry))
    (herr : err = none) (hrs : rs = none ∨ rs = some []) :
    getAndDownloadVideoRun (.response err (some rs)) =
      ⟨IdSignal.notFound, 1⟩ := by
  subst herr
  rcases hrs with h | h <;> subst h <;> rfl

/-- Witness for C4: a well-formed response with an empty results list. -/
theorem download_by_id_not_found_witness :
    (none : Option String) = none ∧
    ((some ([] : List Entry) = none) ∨ some ([] : List Entry) = some []) ∧
    getAndDownloadVideoRun (.response none (some (some []))) =
      ⟨IdSignal.notFound, 1⟩ :=
  ⟨rfl, Or.inr rfl,
    download_by_id_not_found none (some []) rfl (Or.inr rfl)⟩

/-- C8: when the preferences file exists but cannot be parsed, loading
falls back to `{}` (so the built-in defaults take effect, e.g. the
default server URL and quality `hd`), the warning is printed, and the
process does not terminate — there is no exit path in `loadConfig`. -/
theorem config_unparsable_fallback (home : String) :
    loadConfig home (.present none) = ⟨emptyConfig, true, false⟩ ∧
    (loadConfig home (.present none)).terminated = false ∧
    effectiveServer (loadConfig home (.present none)).config = DEFAULT_SERVER ∧
    effectiveQuality (loadConfig home (.present none)).config = "hd" :=
  ⟨rfl, rfl, rfl, rfl⟩

/-- C3 counterexample: the `listChannels` action, when its channel fetch
fails with a network error, catches the exception, prints it, and still
terminates the process with exit code 0 — contradicting the claim that
no action failing on a backend or network error exits with code 0. -/
theorem exit_code_network_failure_cex :
    listChannelsExitCode ListChannelsOutcome.fetchFailure = 0 ∧
    (0 : Nat) ≠ 1 := by
  decide

/-- C3 amended: the process exits 0 on normal completion (including no
results found) and exits 1 on a socket connection error, an uncaught
exception, an unhandled promise rejection, and a download-by-id backend
error or not-found; however, actions that catch a backend or network
error internally report it and still exit 0 — channel listing always
exits 0 even on fetch failure, a fetch exception in download-by-id exits
0, and every interactive-mode outcome exits 0. -/
theorem exit_code_discipline_amended :
    socketErrorExitCode = 1 ∧
    uncaughtExceptionExitCode = 1 ∧
    unhandledRejectionExitCode = 1 ∧
    (∀ oc, listChannelsExitCode oc = 0) ∧
    (∀ oc, startInteractiveModeExitCode oc = 0) ∧
    (getAndDownloadVideoRun .fetchFailure).exitCode = 0 ∧
    (∀ e rs, (getAndDownloadVideoRun (.response (some e) rs)).exitCode = 1) ∧
    (getAndDownloadVideoRun (.response none (some none))).exitCode = 1 ∧
    (getAndDownloadVideoRun (.response none (some (some [])))).exitCode = 1 := by
  refine ⟨rfl, rfl, rfl, ?_, ?_, rfl, ?_, rfl, rfl⟩
  · intro oc
    cases oc <;> rfl
  · intro oc
    cases oc <;> rfl
  · intro e rs
    rfl

/-- C6 counterexample: when the channel-list fetch for the valueless
`-c` flag fails, the error is reported but the dependent action is not
aborted — `options.channel` is set to `null` and execution proceeds into
the action dispatch with no channel filter. -/
theorem channel_fetch_failure_cex :
    resolveChannelSelection .flagNoValue .failure none = ⟨none, true, true⟩ ∧
    (resolveChannelSelection .flagNoValue .failure none).proceeds ≠ false := by
  decide

/-- C6 amended: whenever the channel-list fetch for the channel-selection
prompt fails, or its response has a missing or empty channel list, the
condition is reported and the program continues the dependent action with
no channel filter rather than aborting it. -/
theorem channel_fetch_failure_amended (pick : Option String) :
    resolveChannelSelection .flagNoValue .failure pick = ⟨none, true, true⟩ ∧
    resolveChannelSelection .flagNoValue (.ok none) pick = ⟨none, true, true⟩ ∧
    resolveChannelSelection .flagNoValue (.ok (some [])) pick =
      ⟨none, true, true⟩ := by
  refine ⟨rfl, ?_, ?_⟩ <;> rfl

/-- C5: for every search query with a non-empty channel filter, every
entry of the result list returned by `searchMovies` (after the exclusion
post-filter) has exactly that channel name, given that the backend honors
the channel clause of the emitted query (the backend is an external
service, modelled by `respectsChannelClauses`).  The content on the
client side: the channel clause is actually pushed into the query, and
the exclusion post-filter only removes entries. -/
theorem channel_filter_postcondition (q ch : String) (limit : Option Nat)
    (excl : Option String) (raw : List Entry)
    (hch : ch ≠ "")
    (hraw : respectsChannelClauses (buildSearchQuery q (some ch) limit) raw) :
    ∀ e ∈ searchMoviesResult excl raw, e.channel = ch := by
  intro e he
  have hmem : e ∈ raw := mem_of_mem_searchMoviesResult he
  have hclause : (⟨["channel"], ch⟩ : Clause) ∈
      (buildSearchQuery q (some ch) limit).queries := by
    simp [buildSearchQuery, hch]
  exact hraw e hmem ⟨["channel"], ch⟩ hclause rfl

/-- Witness for C5: a concrete query with channel "ARD" over a
one-entry raw result honoring the clause. -/
theorem channel_filter_postcondition_witness :
    ("ARD" : String) ≠ "" ∧
    respectsChannelClauses (buildSearchQuery "Tatort" (some "ARD") none)
      [sampleARD] ∧
    ∀ e ∈ searchMoviesResult none [sampleARD], e.channel = "ARD" :=
  ⟨by decide, by unfold respectsChannelClauses; decide,
    channel_filter_postcondition "Tatort" "ARD" none none [sampleARD]
      (by decide) (by unfold respectsChannelClauses; decide)⟩
